import Mathlib

/-!
Verification of the book-notes application core: the relational data model
(`users`, `books`, `reviews` from queries.sql), the rating-aggregation
trigger `update_average_rating`, the authentication flow (passport local
strategy in index.js), and the route-level mutation operations
(server/routes, mounted under /auth).

Modelling conventions:
* Database tables are lists of row structures; SQL statements become pure
  functions on a `DBState`.
* A `NUMERIC(3, 2)` value is exactly an integer count of hundredths, so
  the average_rating column is embedded as an integer scaled by 100
  (8.50 is stored as 850); `ROUND(x, 2)` is round half away from zero at
  two decimal places, computed in integer arithmetic on that scale.
* bcrypt is modelled abstractly: `StoredPassword.hashed cost salt pw`
  stands for a well-formed bcrypt hash of `pw` produced with the given
  cost factor and (random) salt, and `StoredPassword.plain s` stands for a
  raw string stored in the password column. `bcrypt.compare` reports a
  match only against a well-formed hash of the same password; against a
  string that is not a bcrypt hash it reports no match. The random salt
  becomes an explicit parameter of the hashing operations.
* `review_id` and `user_id` are SERIAL primary keys; the row triggers
  fire once per affected row, and the embedding computes the single
  affected row with `find?`, which is exact for states whose key columns
  are duplicate free.
-/

namespace BookNotes

/-- Content of the users.password column: either a well-formed bcrypt hash
of a password (with cost factor and salt) or a raw string stored as-is. -/
inductive StoredPassword where
  | plain (s : String)
  | hashed (cost : Nat) (salt : Nat) (pw : String)
deriving DecidableEq

/-- Model of bcrypt.hash(password, saltRounds) with the random salt made
an explicit argument. -/
def bcryptHashWith (cost salt : Nat) (password : String) : StoredPassword :=
  .hashed cost salt password

/-- Model of bcrypt.compare(password, stored): a match requires the stored
value to be a well-formed bcrypt hash of the same password; a stored value
that is not a bcrypt hash never matches. -/
def bcryptCompare (password : String) (stored : StoredPassword) : Bool :=
  match stored with
  | .hashed _ _ pw => password == pw
  | .plain _ => false

/-- saltRounds from index.js. -/
def saltRounds : Nat := 10

/-- Row of the users table (queries.sql). -/
structure UserRow where
  user_id : Nat
  email : String
  password : StoredPassword
  name : String
  about : Option String := none
  phone_number : Option String := none
  favorite_book_id : Option Nat := none
  user_color : Option String := none
deriving DecidableEq

/-- Row of the books table (queries.sql). Dates are kept as strings. -/
structure BookRow where
  book_id : Nat
  isbn13 : String
  title : String
  author : String
  genre : Option String := none
  page_count : Option Int := none
  summary : Option String := none
  date_published : Option String := none
  book_cover : String := "/img/placeholder.jpg"
  average_rating : ℤ := 0
deriving DecidableEq

/-- Row of the reviews table (queries.sql). -/
structure ReviewRow where
  review_id : Nat
  rating : Int
  short_description : String
  long_description : Option String := none
  user_id : Nat
  book_id : Nat
deriving DecidableEq

/-- The three persisted tables. -/
structure DBState where
  users : List UserRow := []
  books : List BookRow := []
  reviews : List ReviewRow := []
deriving DecidableEq

/-- Postgres ROUND for a quotient p / q with q positive: round to the
nearest integer, half away from zero, in integer arithmetic (Int division
of nonnegative operands is floor division). -/
def roundHalfAwayFromZero (p q : ℤ) : ℤ :=
  if 0 ≤ p then (2 * p + q) / (2 * q) else -((2 * (-p) + q) / (2 * q))

/-- Ratings of the current reviews of one book:
SELECT rating FROM reviews WHERE book_id = target. -/
def ratingsFor (st : DBState) (bid : Nat) : List ℤ :=
  (st.reviews.filter (fun r => r.book_id == bid)).map (fun r => r.rating)

/-- COALESCE((SELECT ROUND(AVG(rating), 2) ...), 0): the mean of a list of
ratings rounded to two decimal places in hundredths, or 0 when the list is
empty (AVG of no rows is NULL). -/
def avgOfRatings (rs : List ℤ) : ℤ :=
  if rs.isEmpty then 0 else roundHalfAwayFromZero (100 * rs.sum) (rs.length : ℤ)

/-- Value the trigger body computes for one book from the current state. -/
def triggerComputedAverage (st : DBState) (bid : Nat) : ℤ :=
  avgOfRatings (ratingsFor st bid)

/-- Body of the trigger function update_average_rating (queries.sql): set
average_rating of the target book to the rounded mean of its current
reviews, or 0 when it has none. -/
def update_average_rating (st : DBState) (target_book_id : Nat) : DBState :=
  { st with
    books := st.books.map (fun b =>
      if b.book_id == target_book_id then
        { b with average_rating := triggerComputedAverage st target_book_id }
      else b) }

/-- A review mutation as issued by the routes: INSERT a row, UPDATE the
row with a given review_id (the boolean records whether the rating column
is listed in the SET clause, which is what scopes the UPDATE OF rating
trigger), or DELETE the row matching review_id and user_id. -/
inductive ReviewMutation where
  | ins (r : ReviewRow)
  | upd (review_id : Nat) (f : ReviewRow → ReviewRow) (ratingInSet : Bool)
  | del (review_id : Nat) (user_id : Nat)

/-- Which book the trigger trg_update_avg_after_insert fires for, if it
fires: the new row for INSERT and UPDATE OF rating, the old row for
DELETE; none when no row is affected or the UPDATE does not list the
rating column. -/
def firedBook (st : DBState) (m : ReviewMutation) : Option Nat :=
  match m with
  | .ins r => some r.book_id
  | .upd rid f ratingInSet =>
      if ratingInSet then
        (st.reviews.find? (fun r => r.review_id == rid)).map (fun old => (f old).book_id)
      else none
  | .del rid uid =>
      (st.reviews.find? (fun r => r.review_id == rid && r.user_id == uid)).map
        (fun old => old.book_id)

/-- Execute a review mutation together with the AFTER row trigger: the
table change happens first, then update_average_rating runs on the changed
state for the fired book. -/
def applyReviewMutation (st : DBState) (m : ReviewMutation) : DBState :=
  match m with
  | .ins r =>
      let st1 := { st with reviews := st.reviews ++ [r] }
      update_average_rating st1 r.book_id
  | .upd rid f ratingInSet =>
      match st.reviews.find? (fun r => r.review_id == rid) with
      | none => st
      | some old =>
          let st1 := { st with
            reviews := st.reviews.map (fun r => if r.review_id == rid then f r else r) }
          if ratingInSet then update_average_rating st1 (f old).book_id else st1
  | .del rid uid =>
      match st.reviews.find? (fun r => r.review_id == rid && r.user_id == uid) with
      | none => st
      | some old =>
          let st1 := { st with
            reviews := st.reviews.filter (fun r => !(r.review_id == rid && r.user_id == uid)) }
          update_average_rating st1 old.book_id

/-- The aggregate invariant: every stored average_rating equals the value
the trigger would recompute from the current reviews of that book. -/
def ratingInvariant (st : DBState) : Prop :=
  ∀ b ∈ st.books, b.average_rating = triggerComputedAverage st b.book_id

instance (st : DBState) : Decidable (ratingInvariant st) := by
  unfold ratingInvariant; infer_instance

/-- Flash message set by a route before redirecting. -/
inductive Flash where
  | success (msg : String)
  | error (msg : String)
deriving DecidableEq

/-- Result of the passport local-strategy verify callback (index.js): the
full user row on success, or a failure with the message handed to the
route through info.message. Database errors are outside this model. -/
inductive VerifyOutcome where
  | user (u : UserRow)
  | failure (message : String)
deriving DecidableEq

/-- verify from index.js: SELECT * FROM users WHERE email = $1, take the
first row if any, and bcrypt-compare the submitted password against the
stored password column. -/
def verify (st : DBState) (email password : String) : VerifyOutcome :=
  match st.users.find? (fun u => u.email == email) with
  | some u =>
      if bcryptCompare password u.password then .user u
      else .failure "Incorrect password."
  | none => .failure "User not found."

/-- POST /login (public.js): on failure flash the strategy message when
present, with the literal fallback text only when the strategy supplied
none; on success flash and redirect to the user page. Returns the flash
and the redirect target. -/
def loginRoute (st : DBState) (email password : String) : Flash × String :=
  match verify st email password with
  | .user u => (.success "Successfully logged in!", "/auth/user/" ++ toString u.user_id)
  | .failure m => (.error (if m == "" then "Invalid credentials" else m), "/login")

/-- A database error surfaced to a route; the only one this model needs is
the unique-constraint violation. -/
inductive DbError where
  | uniqueViolation (constraintName : String)
deriving DecidableEq

/-- INSERT INTO users: the UNIQUE constraint on email is checked by the
database and the insert fails atomically when another row already has the
same email. -/
def dbInsertUser (st : DBState) (u : UserRow) : Except DbError DBState :=
  if st.users.any (fun x => x.email == u.email) then
    .error (.uniqueViolation "users_email_key")
  else
    .ok { st with users := st.users ++ [u] }

/-- Observable outcome of POST /register. -/
inductive RegisterOutcome where
  | alreadyRegistered
  | loggedIn (user_id : Nat)
  | internalError
deriving DecidableEq

/-- The user row POST /register inserts: the submitted fields with the
password replaced by its bcrypt hash and a fresh SERIAL id. -/
def registerUserRow (newId salt : Nat) (email password name : String)
    (phone about : Option String) (fav : Option Nat) (color : Option String) : UserRow :=
  { user_id := newId, email := email,
    password := bcryptHashWith saltRounds salt password, name := name,
    about := about, phone_number := phone, favorite_book_id := fav, user_color := color }

/-- POST /register (public.js). The existence check and the insert are
separate statements with no transaction around them, so they may observe
different states: checkSt at SELECT time and insertSt at INSERT time
(a concurrent registration may commit in between). When the check finds
the email it flashes already-registered and redirects to /login; when the
insert itself fails the catch-all answers 500 Internal Server Error.
newId models the SERIAL id, salt the bcrypt salt. -/
def registerRoute (checkSt insertSt : DBState) (newId salt : Nat)
    (email password name : String) (phone about : Option String)
    (fav : Option Nat) (color : Option String) : DBState × RegisterOutcome :=
  if checkSt.users.any (fun u => u.email == email) then
    (insertSt, .alreadyRegistered)
  else
    match dbInsertUser insertSt (registerUserRow newId salt email password name phone about fav color) with
    | .ok st2 => (st2, .loggedIn newId)
    | .error _ => (insertSt, .internalError)

/-- Observable outcome of POST /user/:user_id/edit. -/
inductive EditOutcome where
  | errorRedirect (msg : String) (url : String)
  | successDashboard (msg : String)
deriving DecidableEq

/-- POST /user/:user_id/edit (routes mounted under /auth): look the user
up, require name and email, and when a new password is supplied first
bcrypt-compare it against the stored hash; an identical password is
rejected without touching the row, otherwise the row is updated with the
new hash. Without a password the row is updated leaving the password
column alone. -/
def editUserRoute (st : DBState) (uid : Nat) (name email password : String)
    (about phone : Option String) (fav : Option Nat) (color : Option String)
    (salt : Nat) : DBState × EditOutcome :=
  match st.users.find? (fun u => u.user_id == uid) with
  | none => (st, .errorRedirect "User not found." "/auth/users")
  | some user =>
      if name == "" || email == "" then
        (st, .errorRedirect "Please fill in all required fields."
          ("/auth/user/" ++ toString uid ++ "/edit"))
      else if password == "" then
        ({ st with users := st.users.map (fun u =>
            if u.user_id == uid then
              { u with name := name, email := email, about := about,
                       phone_number := phone, favorite_book_id := fav,
                       user_color := color }
            else u) },
         .successDashboard "User updated successfully!")
      else if bcryptCompare password user.password then
        (st, .errorRedirect "New password must be different from the old password."
          ("/auth/user/" ++ toString uid ++ "/edit"))
      else
        ({ st with users := st.users.map (fun u =>
            if u.user_id == uid then
              { u with name := name, email := email, about := about,
                       phone_number := phone, favorite_book_id := fav,
                       user_color := color,
                       password := bcryptHashWith saltRounds salt password }
            else u) },
         .successDashboard "User and password updated successfully!")

/-- DELETE FROM books WHERE book_id = $1 with its referential actions:
reviews of the book are cascade-deleted, favorite_book_id references to it
are set to null, the users themselves stay. The cascade deletions fire the
review trigger for the deleted book only, whose books row is already gone,
so no surviving average_rating cell is written. -/
def deleteBook (st : DBState) (bid : Nat) : DBState :=
  { users := st.users.map (fun u =>
      if u.favorite_book_id == some bid then { u with favorite_book_id := none } else u),
    books := st.books.filter (fun b => !(b.book_id == bid)),
    reviews := st.reviews.filter (fun r => !(r.book_id == bid)) }

/-- POST /:user_id/delete-review/:review_id: DELETE FROM reviews WHERE
review_id = $1 AND user_id = $2, then unconditionally flash success and
redirect to the user page (also when no row matched). -/
def deleteReviewRoute (st : DBState) (user_id review_id : Nat) : DBState × Flash × String :=
  (applyReviewMutation st (.del review_id user_id),
   .success "Review deleted successfully!",
   "/auth/user/" ++ toString user_id)

/-- First book inserted by the seed script (queries.sql); average_rating
takes its column default 0. -/
def seedBook1 : BookRow :=
  { book_id := 1, isbn13 := "9780134190440", title := "Effective Java",
    author := "Joshua Bloch", genre := some "Programming", page_count := some 416,
    summary := some "Best practices for Java programming.",
    date_published := some "2018-01-11",
    book_cover := "https://covers.openlibrary.org/b/isbn/9780134190440.jpg" }

/-- Books inserted by the seed script; average_rating takes its column
default 0. -/
def seedBooks : List BookRow := [
  seedBook1,
  { book_id := 2, isbn13 := "9781491950357", title := "Designing Data-Intensive Applications",
    author := "Martin Kleppmann", genre := some "Technology", page_count := some 616,
    summary := some "Architectural patterns for reliable software systems.",
    date_published := some "2017-03-16",
    book_cover := "https://covers.openlibrary.org/b/isbn/9781491950357.jpg" },
  { book_id := 3, isbn13 := "9780131103627", title := "The C Programming Language",
    author := "Brian W. Kernighan and Dennis M. Ritchie", genre := some "Programming",
    page_count := some 274, summary := some "Classic book on C programming language.",
    date_published := some "1988-04-01",
    book_cover := "https://covers.openlibrary.org/b/isbn/9780131103627.jpg" },
  { book_id := 4, isbn13 := "9780596009205", title := "Head First Design Patterns",
    author := "Eric Freeman et al.", genre := some "Programming", page_count := some 694,
    summary := some "A brain-friendly guide to design patterns.",
    date_published := some "2004-10-25",
    book_cover := "https://covers.openlibrary.org/b/isbn/9780596009205.jpg" },
  { book_id := 5, isbn13 := "9780262033848", title := "Introduction to Algorithms",
    author := "Thomas H. Cormen et al.", genre := some "Computer Science",
    page_count := some 1312, summary := some "Comprehensive textbook on algorithms.",
    date_published := some "2009-07-31",
    book_cover := "https://covers.openlibrary.org/b/isbn/9780262033848.jpg" },
  { book_id := 6, isbn13 := "9780132350884", title := "Clean Code",
    author := "Robert C. Martin", genre := some "Programming", page_count := some 464,
    summary := some "A handbook of agile software craftsmanship.",
    date_published := some "2008-08-11",
    book_cover := "https://covers.openlibrary.org/b/isbn/9780132350884.jpg" },
  { book_id := 7, isbn13 := "9780201633610", title := "Design Patterns",
    author := "Erich Gamma et al.", genre := some "Programming", page_count := some 395,
    summary := some "Elements of reusable object-oriented software.",
    date_published := some "1994-10-31",
    book_cover := "https://covers.openlibrary.org/b/isbn/9780201633610.jpg" },
  { book_id := 8, isbn13 := "9780134685991", title := "Effective Modern C++",
    author := "Scott Meyers", genre := some "Programming", page_count := some 334,
    summary := some "42 specific ways to improve your use of C++11 and C++14.",
    date_published := some "2014-11-05",
    book_cover := "https://covers.openlibrary.org/b/isbn/9780134685991.jpg" },
  { book_id := 9, isbn13 := "9780134494166", title := "Refactoring",
    author := "Martin Fowler", genre := some "Programming", page_count := some 448,
    summary := some "Improving the design of existing code.",
    date_published := some "2018-11-19",
    book_cover := "https://covers.openlibrary.org/b/isbn/9780134494166.jpg" },
  { book_id := 10, isbn13 := "9781492078005", title := "Fluent Python",
    author := "Luciano Ramalho", genre := some "Programming", page_count := some 792,
    summary := some "Clear, concise, and effective programming in Python.",
    date_published := some "2015-07-30",
    book_cover := "https://covers.openlibrary.org/b/isbn/9781492078005.jpg" }]

/-- First user inserted by the seed script (queries.sql): the password
column receives the literal string password, not a bcrypt hash. -/
def seedUser1 : UserRow :=
  { user_id := 1, email := "testuser1@example.com", password := .plain "password",
    name := "Test User 1", about := some "About Test User 1",
    phone_number := some "+1234567890", favorite_book_id := some 1,
    user_color := some "blue" }

/-- Second user inserted by the seed script. -/
def seedUser2 : UserRow :=
  { user_id := 2, email := "testuser2@example.com", password := .plain "password",
    name := "Test User 2", about := some "About Test User 2",
    phone_number := some "+0987654321", favorite_book_id := some 2,
    user_color := some "green" }

/-- Users inserted by the seed script. -/
def seedUsers : List UserRow := [seedUser1, seedUser2]

/-- First seeded review row. -/
def seedReview1 : ReviewRow :=
  { review_id := 1, rating := 8, short_description := "Great book on Java!",
    long_description := some "Effective Java provides best practices for Java programming.",
    user_id := 1, book_id := 1 }

/-- Second seeded review row. -/
def seedReview2 : ReviewRow :=
  { review_id := 2, rating := 9, short_description := "A must-read for software architects.",
    long_description := some "Designing Data-Intensive Applications is essential for understanding modern software architecture.",
    user_id := 1, book_id := 2 }

/-- State after the seed script: books and users inserted directly, the
two review inserts going through the trigger. -/
def seedState : DBState :=
  applyReviewMutation
    (applyReviewMutation { users := seedUsers, books := seedBooks } (.ins seedReview1))
    (.ins seedReview2)

/-- State with no rows. -/
def emptyState : DBState := {}

/-- A registered user whose stored credential is a proper bcrypt hash of
the word password, as the register route would have produced it. -/
def demoUser : UserRow :=
  { user_id := 7, email := "user@example.com",
    password := .hashed saltRounds 3 "password", name := "Demo User" }

/-- State holding only demoUser; used to exercise the auth flow. -/
def authDemoState : DBState := { users := [demoUser] }

/-- State in which a concurrent registration for dup@example.com has
already committed. -/
def raceWinnerState : DBState :=
  { users := [{ user_id := 1, email := "dup@example.com",
                password := .hashed saltRounds 5 "pw1", name := "First" }] }

/-- Whether a stored password value is a well-formed bcrypt hash at all. -/
def isBcryptHash (sp : StoredPassword) : Bool :=
  match sp with
  | .hashed _ _ _ => true
  | .plain _ => false

/-- Side condition on a mutation: an update keeps each affected review on
its book, and when the rating column is not listed in the SET clause the
rating value is unchanged (which SQL guarantees by itself). Inserts and
deletes carry no condition. -/
def updKeepsBook (st : DBState) (m : ReviewMutation) : Prop :=
  match m with
  | .ins _ => True
  | .del _ _ => True
  | .upd rid f ratingInSet =>
      ∀ r ∈ st.reviews, r.review_id = rid →
        ((f r).book_id = r.book_id ∧ (ratingInSet = true ∨ (f r).rating = r.rating))

theorem filter_of_filter_not {α : Type} (l : List α) (p q : α → Bool)
    (h : ∀ r ∈ l, q r = true → p r = false) :
    (l.filter (fun r => !(q r))).filter p = l.filter p := by
  induction l with
  | nil => rfl
  | cons a tl ih =>
    have htl : ∀ r ∈ tl, q r = true → p r = false :=
      fun r hr => h r (List.mem_cons_of_mem a hr)
    cases hq : q a with
    | true =>
      have hp : p a = false := h a (List.mem_cons_self a tl) hq
      simp [List.filter_cons, hq, hp, ih htl]
    | false =>
      simp [List.filter_cons, hq, ih htl]

theorem ratings_of_map_ite (l : List ReviewRow) (sel : ReviewRow → Bool)
    (g : ReviewRow → ReviewRow) (bid : Nat)
    (h : ∀ r ∈ l, sel r = true →
        (((g r).book_id == bid) = (r.book_id == bid)
          ∧ ((r.book_id == bid) = true → (g r).rating = r.rating))) :
    ((l.map (fun r => if sel r then g r else r)).filter
        (fun r => r.book_id == bid)).map (fun r => r.rating)
      = (l.filter (fun r => r.book_id == bid)).map (fun r => r.rating) := by
  induction l with
  | nil => rfl
  | cons a tl ih =>
    have htl : ∀ r ∈ tl, sel r = true →
        (((g r).book_id == bid) = (r.book_id == bid)
          ∧ ((r.book_id == bid) = true → (g r).rating = r.rating)) :=
      fun r hr => h r (List.mem_cons_of_mem a hr)
    cases hsel : sel a with
    | false =>
      cases hpb : (a.book_id == bid) with
      | true => simp [List.filter_cons, hsel, hpb, ih htl]
      | false => simp [List.filter_cons, hsel, hpb, ih htl]
    | true =>
      obtain ⟨hb, hr⟩ := h a (List.mem_cons_self a tl) hsel
      cases hpb : (a.book_id == bid) with
      | true =>
        have hgb : ((g a).book_id == bid) = true := by rw [hb, hpb]
        simp [List.filter_cons, hsel, hpb, hgb, hr hpb, ih htl]
      | false =>
        have hgb : ((g a).book_id == bid) = false := by rw [hb, hpb]
        simp [List.filter_cons, hsel, hpb, hgb, ih htl]

theorem key_unique {l : List ReviewRow}
    (hnd : (l.map (fun r => r.review_id)).Nodup)
    {a b : ReviewRow} (ha : a ∈ l) (hb : b ∈ l)
    (hk : a.review_id = b.review_id) : a = b :=
  List.inj_on_of_nodup_map hnd ha hb hk

theorem triggerComputedAverage_congr {st st' : DBState}
    (h : st.reviews = st'.reviews) (bid : Nat) :
    triggerComputedAverage st bid = triggerComputedAverage st' bid := by
  unfold triggerComputedAverage ratingsFor
  rw [h]

theorem update_average_rating_reviews (st : DBState) (t : Nat) :
    (update_average_rating st t).reviews = st.reviews := rfl

theorem mem_update_average_rating_books {st : DBState} {t : Nat} {b : BookRow}
    (hb : b ∈ (update_average_rating st t).books) :
    ∃ b0, b0 ∈ st.books ∧
      b = (if b0.book_id == t then
            { b0 with average_rating := triggerComputedAverage st t } else b0) := by
  obtain ⟨b0, hb0, hbe⟩ := List.mem_map.mp hb
  exact ⟨b0, hb0, hbe.symm⟩

theorem books_after_update_avg {st1 : DBState} {t : Nat} {b : BookRow}
    (hb : b ∈ (update_average_rating st1 t).books) (hbt : b.book_id = t) :
    b.average_rating = triggerComputedAverage st1 t := by
  obtain ⟨b0, hb0, hbe⟩ := mem_update_average_rating_books hb
  cases hbk : (b0.book_id == t) with
  | true => rw [hbe]; simp [hbk]
  | false =>
    exfalso
    rw [hbe] at hbt
    simp [hbk] at hbt
    simp [hbt] at hbk

theorem mem_books_of_update_avg_ne {st1 : DBState} {t : Nat} {b : BookRow}
    (hb : b ∈ (update_average_rating st1 t).books) (hne : b.book_id ≠ t) :
    b ∈ st1.books := by
  obtain ⟨b0, hb0, hbe⟩ := mem_update_average_rating_books hb
  cases hbk : (b0.book_id == t) with
  | true =>
    rw [hbe] at hne
    simp [hbk] at hne
    exact absurd (beq_iff_eq.mp hbk) hne
  | false =>
    rw [hbe]
    simpa [hbk] using hb0

theorem triggerComputedAverage_append_ne (st : DBState) (r : ReviewRow) (bid : Nat)
    (hne : r.book_id ≠ bid) :
    triggerComputedAverage { st with reviews := st.reviews ++ [r] } bid
      = triggerComputedAverage st bid := by
  have hb : (r.book_id == bid) = false := by simp [hne]
  unfold triggerComputedAverage ratingsFor
  simp [List.filter_append, List.filter_cons, hb]

/-- C1 (amended): the aggregate invariant is preserved by every review
insert and delete, and by every update that keeps each affected review on
its book (and, when the rating column is not listed in the SET clause,
leaves the rating value unchanged, as SQL itself guarantees): immediately
after such a mutation every stored average_rating equals the rounded mean
of the current ratings of that book, or 0 with no reviews, provided that
held before. An update that moves a review to a different book is
excluded: the trigger recomputes only the new book, leaving the old book
stale (see the counterexample). -/
theorem ratingInvariant_preserved (st : DBState) (m : ReviewMutation)
    (hnd : (st.reviews.map (fun r => r.review_id)).Nodup)
    (hinv : ratingInvariant st) (hok : updKeepsBook st m) :
    ratingInvariant (applyReviewMutation st m) := by
  cases m with
  | ins r =>
    have hres : applyReviewMutation st (.ins r)
        = update_average_rating { st with reviews := st.reviews ++ [r] } r.book_id := rfl
    intro b hb
    rw [hres] at hb ⊢
    by_cases hbt : b.book_id = r.book_id
    · rw [books_after_update_avg hb hbt, hbt]
      exact triggerComputedAverage_congr rfl r.book_id
    · have hbmem : b ∈ st.books := by
        have h := mem_books_of_update_avg_ne hb hbt
        exact h
      calc b.average_rating = triggerComputedAverage st b.book_id := hinv b hbmem
        _ = triggerComputedAverage { st with reviews := st.reviews ++ [r] } b.book_id :=
            (triggerComputedAverage_append_ne st r b.book_id (fun h => hbt h.symm)).symm
        _ = triggerComputedAverage
              (update_average_rating { st with reviews := st.reviews ++ [r] } r.book_id)
              b.book_id :=
            triggerComputedAverage_congr rfl b.book_id
  | upd rid f ratingInSet =>
    have hokv : ∀ r ∈ st.reviews, r.review_id = rid →
        ((f r).book_id = r.book_id ∧ (ratingInSet = true ∨ (f r).rating = r.rating)) := hok
    cases hfind : st.reviews.find? (fun r => r.review_id == rid) with
    | none =>
      have hres : applyReviewMutation st (.upd rid f ratingInSet) = st := by
        simp [applyReviewMutation, hfind]
      rw [hres]; exact hinv
    | some old =>
      have hold_mem : old ∈ st.reviews := List.mem_of_find?_eq_some hfind
      have hold_rid : old.review_id = rid := by simpa using List.find?_some hfind
      cases hrs : ratingInSet with
      | false =>
        have hres : applyReviewMutation st (.upd rid f false)
            = { st with reviews :=
                st.reviews.map (fun r => if r.review_id == rid then f r else r) } := by
          simp [applyReviewMutation, hfind]
        rw [hres]
        intro b hb
        have hbmem : b ∈ st.books := hb
        have hframe := ratings_of_map_ite st.reviews (fun r => r.review_id == rid) f b.book_id
          (by
            intro r hr hsel
            obtain ⟨h1, h2⟩ := hokv r hr (beq_iff_eq.mp hsel)
            have h3 : (f r).rating = r.rating := h2.resolve_left (by simp [hrs])
            exact ⟨by rw [h1], fun _ => h3⟩)
        calc b.average_rating = triggerComputedAverage st b.book_id := hinv b hbmem
          _ = triggerComputedAverage
                { st with reviews :=
                  st.reviews.map (fun r => if r.review_id == rid then f r else r) }
                b.book_id := by
              unfold triggerComputedAverage ratingsFor
              rw [hframe]
      | true =>
        have hres : applyReviewMutation st (.upd rid f true)
            = update_average_rating
                { st with reviews :=
                  st.reviews.map (fun r => if r.review_id == rid then f r else r) }
                (f old).book_id := by
          simp [applyReviewMutation, hfind]
        intro b hb
        rw [hres] at hb ⊢
        have hfb : (f old).book_id = old.book_id := (hokv old hold_mem hold_rid).1
        by_cases hbt : b.book_id = (f old).book_id
        · rw [books_after_update_avg hb hbt, hbt]
          exact triggerComputedAverage_congr rfl _
        · have hbmem : b ∈ st.books := by
            have h := mem_books_of_update_avg_ne hb hbt
            exact h
          have hne1 : (f old).book_id ≠ b.book_id := fun h => hbt h.symm
          have hne2 : old.book_id ≠ b.book_id := by rw [← hfb]; exact hne1
          have hframe := ratings_of_map_ite st.reviews (fun r => r.review_id == rid) f b.book_id
            (by
              intro r hr hsel
              have hre : r = old := key_unique hnd hr hold_mem
                ((beq_iff_eq.mp hsel).trans hold_rid.symm)
              subst hre
              refine ⟨?_, ?_⟩
              · rw [beq_eq_false_iff_ne.mpr hne1, beq_eq_false_iff_ne.mpr hne2]
              · intro hcb
                exact absurd (beq_iff_eq.mp hcb) hne2)
          calc b.average_rating = triggerComputedAverage st b.book_id := hinv b hbmem
            _ = triggerComputedAverage
                  { st with reviews :=
                    st.reviews.map (fun r => if r.review_id == rid then f r else r) }
                  b.book_id := by
                unfold triggerComputedAverage ratingsFor
                rw [hframe]
            _ = triggerComputedAverage
                  (update_average_rating
                    { st with reviews :=
                      st.reviews.map (fun r => if r.review_id == rid then f r else r) }
                    (f old).book_id)
                  b.book_id :=
                triggerComputedAverage_congr rfl b.book_id
  | del rid uid =>
    cases hfind : st.reviews.find? (fun r => r.review_id == rid && r.user_id == uid) with
    | none =>
      have hres : applyReviewMutation st (.del rid uid) = st := by
        simp [applyReviewMutation, hfind]
      rw [hres]; exact hinv
    | some old =>
      have hold_mem : old ∈ st.reviews := List.mem_of_find?_eq_some hfind
      have hold_pred : old.review_id = rid ∧ old.user_id = uid := by
        simpa using List.find?_some hfind
      have hold_rid : old.review_id = rid := hold_pred.1
      have hres : applyReviewMutation st (.del rid uid)
          = update_average_rating
              { st with reviews :=
                st.reviews.filter (fun r => !(r.review_id == rid && r.user_id == uid)) }
              old.book_id := by
        simp [applyReviewMutation, hfind]
      intro b hb
      rw [hres] at hb ⊢
      by_cases hbt : b.book_id = old.book_id
      · rw [books_after_update_avg hb hbt, hbt]
        exact triggerComputedAverage_congr rfl _
      · have hbmem : b ∈ st.books := by
          have h := mem_books_of_update_avg_ne hb hbt
          exact h
        have hframe :
            ((st.reviews.filter (fun r => !(r.review_id == rid && r.user_id == uid))).filter
                (fun r => r.book_id == b.book_id))
              = st.reviews.filter (fun r => r.book_id == b.book_id) := by
          refine filter_of_filter_not _ _ _ ?_
          intro r hr hq
          have hq2 : r.review_id = rid ∧ r.user_id = uid := by simpa using hq
          have hre : r = old := key_unique hnd hr hold_mem (hq2.1.trans hold_rid.symm)
          subst hre
          exact beq_eq_false_iff_ne.mpr (fun h => hbt h.symm)
        calc b.average_rating = triggerComputedAverage st b.book_id := hinv b hbmem
          _ = triggerComputedAverage
                { st with reviews :=
                  st.reviews.filter (fun r => !(r.review_id == rid && r.user_id == uid)) }
                b.book_id := by
              unfold triggerComputedAverage ratingsFor
              rw [hframe]
          _ = triggerComputedAverage
                (update_average_rating
                  { st with reviews :=
                    st.reviews.filter (fun r => !(r.review_id == rid && r.user_id == uid)) }
                  old.book_id)
                b.book_id :=
              triggerComputedAverage_congr rfl b.book_id

/-- C1 counterexample: the invariant as claimed fails for an update that
changes the book_id of a review. The seeded state satisfies the
invariant; editing review 1 to move it from book 1 to book 3 — with the
rating column listed in the SET clause, exactly as the edit-review route
issues it — breaks the invariant, because book 1 keeps its old stored
average although it no longer has any review. -/
theorem ratingInvariant_bookMove_counterexample :
    ratingInvariant seedState
    ∧ ¬ ratingInvariant
        (applyReviewMutation seedState
          (.upd 1 (fun r => { r with book_id := 3 }) true)) := by
  constructor
  · decide
  · decide

/-- Witness: the amended preservation theorem applied to the seeded state
and a concrete review insert. -/
theorem ratingInvariant_preserved_witness :
    ratingInvariant
      (applyReviewMutation seedState
        (.ins { review_id := 3, rating := 10, short_description := "Nice",
                user_id := 2, book_id := 1 })) :=
  ratingInvariant_preserved seedState
    (.ins { review_id := 3, rating := 10, short_description := "Nice",
            user_id := 2, book_id := 1 })
    (by decide) (by decide) trivial

/-- C2: when the trigger fires for a review mutation, the book it fires
for is the new row of an insert or update and the old row of a delete
(firedBook), and after the mutation the stored average_rating of that book
equals the mean of all its current ratings rounded to two decimal places,
or 0 when no reviews remain. -/
theorem trigger_sets_target_average (st : DBState) (m : ReviewMutation) (t : Nat)
    (hfire : firedBook st m = some t) :
    ∀ b ∈ (applyReviewMutation st m).books, b.book_id = t →
      b.average_rating = avgOfRatings (ratingsFor (applyReviewMutation st m) t) := by
  cases m with
  | ins r =>
    have ht : r.book_id = t := by simpa [firedBook] using hfire
    subst ht
    intro b hb hbt
    have hres : applyReviewMutation st (.ins r)
        = update_average_rating { st with reviews := st.reviews ++ [r] } r.book_id := rfl
    rw [hres] at hb ⊢
    rw [books_after_update_avg hb hbt]
    exact triggerComputedAverage_congr rfl r.book_id
  | upd rid f ratingInSet =>
    cases hrs : ratingInSet with
    | false => rw [hrs] at hfire; simp [firedBook] at hfire
    | true =>
      rw [hrs] at hfire
      cases hfind : st.reviews.find? (fun r => r.review_id == rid) with
      | none => simp [firedBook, hfind] at hfire
      | some old =>
        have ht : (f old).book_id = t := by simpa [firedBook, hfind] using hfire
        subst ht
        intro b hb hbt
        have hres : applyReviewMutation st (.upd rid f true)
            = update_average_rating
                { st with reviews :=
                  st.reviews.map (fun r => if r.review_id == rid then f r else r) }
                (f old).book_id := by
          simp [applyReviewMutation, hfind]
        rw [hres] at hb ⊢
        rw [books_after_update_avg hb hbt]
        exact triggerComputedAverage_congr rfl (f old).book_id
  | del rid uid =>
    cases hfind : st.reviews.find? (fun r => r.review_id == rid && r.user_id == uid) with
    | none => simp [firedBook, hfind] at hfire
    | some old =>
      have ht : old.book_id = t := by simpa [firedBook, hfind] using hfire
      subst ht
      intro b hb hbt
      have hres : applyReviewMutation st (.del rid uid)
          = update_average_rating
              { st with reviews :=
                st.reviews.filter (fun r => !(r.review_id == rid && r.user_id == uid)) }
              old.book_id := by
        simp [applyReviewMutation, hfind]
      rw [hres] at hb ⊢
      rw [books_after_update_avg hb hbt]
      exact triggerComputedAverage_congr rfl old.book_id

/-- Witness: deleting seeded review 1 (user 1, book 1) fires the trigger
for book 1 and leaves book 1 holding average 0, the recomputation over its
now-empty review set. -/
theorem trigger_sets_target_average_witness :
    ({ seedBook1 with average_rating := 0 } : BookRow).average_rating
      = avgOfRatings (ratingsFor (applyReviewMutation seedState (.del 1 1)) 1) :=
  trigger_sets_target_average seedState (.del 1 1) 1 (by decide)
    { seedBook1 with average_rating := 0 } (by decide) (by decide)

/-- C3: the two authentication failure kinds do not render one generic
invalid-credentials text. The login route flashes the message the verify
strategy supplies, so an unknown email renders User not found. while a
wrong password for an existing account renders Incorrect password., two
distinct caller-visible messages that reveal which field was wrong; the
generic Invalid credentials fallback is never reached for these inputs. -/
theorem login_failure_messages_distinguishable :
    (loginRoute authDemoState "nobody@example.com" "password").1
      = .error "User not found."
    ∧ (loginRoute authDemoState "user@example.com" "wrongpassword").1
      = .error "Incorrect password."
    ∧ Flash.error "User not found." ≠ Flash.error "Incorrect password." := by
  refine ⟨by decide, by decide, by decide⟩

/-- C4 counterexample: with an empty state at existence-check time and a
state already holding dup@example.com at insert time (the concurrent
winner), the insert fails with the unique-constraint violation, the
winner row is untouched, but the route answers the generic 500 outcome
rather than the duplicate-email outcome. -/
theorem register_race_not_duplicateEmail :
    registerRoute emptyState raceWinnerState 2 6 "dup@example.com" "pw2" "Second"
        none none none none
      = (raceWinnerState, .internalError)
    ∧ dbInsertUser raceWinnerState
        (registerUserRow 2 6 "dup@example.com" "pw2" "Second" none none none none)
      = .error (.uniqueViolation "users_email_key")
    ∧ RegisterOutcome.internalError ≠ RegisterOutcome.alreadyRegistered := by
  refine ⟨by decide, by rfl, by decide⟩

/-- C4 (amended): when the pre-insert existence check misses a concurrent
writer — the email is absent at check time and present at insert time —
the insert fails with the uniqueness constraint-violation error and every
existing user record, in particular the first registration, is left
unchanged; but the route surfaces the failure as the generic internal
error outcome, not as a duplicate-email message (that message is produced
only by the pre-insert check). -/
theorem register_race_constraint_internalError (checkSt insertSt : DBState)
    (newId salt : Nat) (email pw nm : String) (ph ab : Option String)
    (fv : Option Nat) (cl : Option String)
    (hmiss : checkSt.users.any (fun u => u.email == email) = false)
    (hdup : insertSt.users.any (fun u => u.email == email) = true) :
    dbInsertUser insertSt (registerUserRow newId salt email pw nm ph ab fv cl)
      = .error (.uniqueViolation "users_email_key")
    ∧ registerRoute checkSt insertSt newId salt email pw nm ph ab fv cl
      = (insertSt, .internalError) := by
  have h1 : dbInsertUser insertSt (registerUserRow newId salt email pw nm ph ab fv cl)
      = .error (.uniqueViolation "users_email_key") := by
    unfold dbInsertUser registerUserRow
    simp [hdup]
  refine ⟨h1, ?_⟩
  unfold registerRoute
  rw [hmiss, h1]
  simp

/-- Witness for the amended C4 theorem at the concrete race state. -/
theorem register_race_constraint_internalError_witness :
    registerRoute emptyState raceWinnerState 9 4 "dup@example.com" "other" "Late"
        none none none none
      = (raceWinnerState, .internalError) :=
  (register_race_constraint_internalError emptyState raceWinnerState 9 4
    "dup@example.com" "other" "Late" none none none none (by decide) (by decide)).2

/-- C5: the seed script persists the literal string password for
testuser1@example.com — not a bcrypt hash of any work factor — while the
register route does store a bcrypt hash with work factor saltRounds = 10;
so the all-write-paths hashing claim fails on the seeded rows. -/
theorem seed_stores_plaintext_password :
    (seedState.users.find? (fun u => u.email == "testuser1@example.com")).map
        (fun u => u.password)
      = some (.plain "password")
    ∧ isBcryptHash (.plain "password") = false
    ∧ (registerRoute emptyState emptyState 1 7 "new@example.com" "secret" "N"
        none none none none).1.users.map (fun u => u.password)
      = [.hashed 10 7 "secret"] := by
  refine ⟨by decide, by decide, by decide⟩

/-- C6: verify on the seeded database. An unknown email yields the
user-not-found failure, as claimed; but for the seeded user the stored
credential is the plaintext password, which bcrypt comparison cannot
match, so verify with the correct password yields the incorrect-password
failure instead of returning the user, although the user row exists. -/
theorem verify_seeded_user_password :
    verify seedState "nobody@example.com" "password" = .failure "User not found."
    ∧ (seedState.users.find? (fun u => u.email == "testuser1@example.com")).isSome = true
    ∧ verify seedState "testuser1@example.com" "password"
      = .failure "Incorrect password."
    ∧ verify authDemoState "user@example.com" "password" = .user demoUser := by
  refine ⟨by decide, by decide, by decide, by decide⟩

/-- C7: a profile edit that supplies a new password first compares it
against the stored hash: a matching password is rejected with the
must-be-different message and the state is returned unchanged; a
non-matching one is re-hashed with work factor saltRounds and stored on
the row of that user. -/
theorem edit_rejects_unchanged_password (st : DBState) (uid : Nat)
    (nm em pw : String) (ab ph : Option String) (fv : Option Nat)
    (cl : Option String) (salt : Nat)
    (hnm : (nm == "") = false) (hem : (em == "") = false) (hpw : (pw == "") = false)
    (old : UserRow) (hfind : st.users.find? (fun u => u.user_id == uid) = some old) :
    (bcryptCompare pw old.password = true →
      editUserRoute st uid nm em pw ab ph fv cl salt
        = (st, .errorRedirect "New password must be different from the old password."
            ("/auth/user/" ++ toString uid ++ "/edit")))
    ∧ (bcryptCompare pw old.password = false →
        (editUserRoute st uid nm em pw ab ph fv cl salt).2
          = .successDashboard "User and password updated successfully!"
        ∧ ∀ u ∈ (editUserRoute st uid nm em pw ab ph fv cl salt).1.users,
            u.user_id = uid → u.password = bcryptHashWith saltRounds salt pw) := by
  constructor
  · intro hcmp
    unfold editUserRoute
    rw [hfind]
    simp [hnm, hem, hpw, hcmp]
  · intro hcmp
    have hstate : (editUserRoute st uid nm em pw ab ph fv cl salt).1
        = { st with users := st.users.map (fun u =>
            if u.user_id == uid then
              { u with name := nm, email := em, about := ab, phone_number := ph,
                       favorite_book_id := fv, user_color := cl,
                       password := bcryptHashWith saltRounds salt pw }
            else u) } := by
      unfold editUserRoute
      rw [hfind]
      simp [hnm, hem, hpw, hcmp]
    constructor
    · unfold editUserRoute
      rw [hfind]
      simp [hnm, hem, hpw, hcmp]
    · intro u hu huid
      rw [hstate] at hu
      obtain ⟨u0, hu0, hue⟩ := List.mem_map.mp hu
      cases hk : (u0.user_id == uid) with
      | true =>
        rw [← hue]
        simp [hk]
      | false =>
        exfalso
        rw [← hue] at huid
        simp [hk] at huid
        simp [huid] at hk

/-- Witness: demoUser (stored hash of the word password) makes the edit
route reject that same password and accept a different one. -/
theorem edit_rejects_unchanged_password_witness :
    editUserRoute authDemoState 7 "N" "e@x" "password" none none none none 4
      = (authDemoState,
         .errorRedirect "New password must be different from the old password."
           ("/auth/user/" ++ toString 7 ++ "/edit"))
    ∧ (editUserRoute authDemoState 7 "N" "e@x" "newpass" none none none none 4).2
      = .successDashboard "User and password updated successfully!" :=
  ⟨(edit_rejects_unchanged_password authDemoState 7 "N" "e@x" "password"
      none none none none 4 (by decide) (by decide) (by decide) demoUser
      (by decide)).1 (by decide),
   ((edit_rejects_unchanged_password authDemoState 7 "N" "e@x" "newpass"
      none none none none 4 (by decide) (by decide) (by decide) demoUser
      (by decide)).2 (by decide)).1⟩

/-- C8: an UPDATE on reviews whose SET clause does not list the rating
column (touching only non-rating fields, so the rating value is unchanged)
does not fire the aggregation trigger, and every stored average_rating —
in particular that of the affected book — is exactly as before. -/
theorem nonrating_update_leaves_books (st : DBState) (rid : Nat)
    (f : ReviewRow → ReviewRow) (_hf : ∀ r, (f r).rating = r.rating) :
    firedBook st (.upd rid f false) = none
    ∧ (applyReviewMutation st (.upd rid f false)).books = st.books := by
  refine ⟨rfl, ?_⟩
  cases hfind : st.reviews.find? (fun r => r.review_id == rid) with
  | none => simp [applyReviewMutation, hfind]
  | some old => simp [applyReviewMutation, hfind]

/-- Witness: editing only the short description of seeded review 1. -/
theorem nonrating_update_leaves_books_witness :
    (applyReviewMutation seedState
      (.upd 1 (fun r => { r with short_description := "Edited" }) false)).books
      = seedState.books :=
  (nonrating_update_leaves_books seedState 1
    (fun r => { r with short_description := "Edited" }) (fun _ => rfl)).2

/-- C9: deleting a book removes exactly the reviews referencing it, nulls
favorite_book_id exactly on the users that referenced it without deleting
any user, and leaves every other review and every other user record
unchanged. -/
theorem deleteBook_cascades (st : DBState) (bid : Nat) :
    (∀ r ∈ (deleteBook st bid).reviews, r ∈ st.reviews ∧ r.book_id ≠ bid)
    ∧ (∀ r ∈ st.reviews, r.book_id ≠ bid → r ∈ (deleteBook st bid).reviews)
    ∧ (∀ u ∈ st.users, u.favorite_book_id = some bid →
        { u with favorite_book_id := none } ∈ (deleteBook st bid).users)
    ∧ (∀ u ∈ st.users, u.favorite_book_id ≠ some bid → u ∈ (deleteBook st bid).users)
    ∧ (deleteBook st bid).users.length = st.users.length := by
  refine ⟨?_, ?_, ?_, ?_, ?_⟩
  · intro r hr
    have hm := List.mem_filter.mp hr
    exact ⟨hm.1, by simpa using hm.2⟩
  · intro r hr hne
    exact List.mem_filter.mpr ⟨hr, by simpa using hne⟩
  · intro u hu hfav
    have heq : ({ u with favorite_book_id := none } : UserRow)
        = (fun v => if v.favorite_book_id == some bid then
            { v with favorite_book_id := none } else v) u := by
      simp [hfav]
    rw [heq]
    exact List.mem_map_of_mem _ hu
  · intro u hu hne
    have hmem := List.mem_map_of_mem
      (fun v => if v.favorite_book_id == some bid then
        { v with favorite_book_id := none } else v) hu
    have hfu : (fun v => if v.favorite_book_id == some bid then
        ({ v with favorite_book_id := none } : UserRow) else v) u = u := by
      simp [hne]
    rwa [hfu] at hmem
  · simp [deleteBook]

/-- Witness: deleting seeded book 1 keeps review 2 (book 2), drops review
1, and nulls the favorite of seeded user 1 while keeping both users. -/
theorem deleteBook_cascades_witness :
    ({ seedUser1 with favorite_book_id := none } : UserRow)
      ∈ (deleteBook seedState 1).users
    ∧ seedReview2 ∈ (deleteBook seedState 1).reviews
    ∧ (deleteBook seedState 1).users.length = seedState.users.length :=
  ⟨(deleteBook_cascades seedState 1).2.2.1 seedUser1 (by decide) (by decide),
   (deleteBook_cascades seedState 1).2.1 seedReview2 (by decide) (by decide),
   (deleteBook_cascades seedState 1).2.2.2.2⟩

/-- C10: the delete-review route removes exactly the reviews matching both
the review id and the user id of the path; reviews of other users (or
other ids) survive unchanged, and when nothing matches the state is
unchanged — while the response is unconditionally the success flash and
the redirect to the user page, never an error. -/
theorem deleteReview_scoped (st : DBState) (uid rid : Nat) :
    (∀ r ∈ st.reviews, ¬(r.review_id = rid ∧ r.user_id = uid) →
        r ∈ (deleteReviewRoute st uid rid).1.reviews)
    ∧ (∀ r ∈ (deleteReviewRoute st uid rid).1.reviews,
        r ∈ st.reviews ∧ ¬(r.review_id = rid ∧ r.user_id = uid))
    ∧ ((∀ r ∈ st.reviews, ¬(r.review_id = rid ∧ r.user_id = uid)) →
        (deleteReviewRoute st uid rid).1 = st)
    ∧ (deleteReviewRoute st uid rid).2
      = (.success "Review deleted successfully!", "/auth/user/" ++ toString uid) := by
  cases hfind : st.reviews.find? (fun r => r.review_id == rid && r.user_id == uid) with
  | none =>
    have hres : (deleteReviewRoute st uid rid).1 = st := by
      simp [deleteReviewRoute, applyReviewMutation, hfind]
    have hnomatch : ∀ r ∈ st.reviews, ¬(r.review_id = rid ∧ r.user_id = uid) := by
      intro r hr hcon
      have hnp := List.find?_eq_none.mp hfind r hr
      exact hnp (by simp [hcon.1, hcon.2])
    refine ⟨?_, ?_, fun _ => hres, rfl⟩
    · intro r hr _
      rw [hres]
      exact hr
    · intro r hr
      rw [hres] at hr
      exact ⟨hr, hnomatch r hr⟩
  | some old =>
    have hrev : (deleteReviewRoute st uid rid).1.reviews
        = st.reviews.filter (fun r => !(r.review_id == rid && r.user_id == uid)) := by
      simp [deleteReviewRoute, applyReviewMutation, hfind, update_average_rating]
    have hold_mem : old ∈ st.reviews := List.mem_of_find?_eq_some hfind
    have hold_pred : old.review_id = rid ∧ old.user_id = uid := by
      simpa using List.find?_some hfind
    refine ⟨?_, ?_, ?_, rfl⟩
    · intro r hr hne
      rw [hrev]
      refine List.mem_filter.mpr ⟨hr, ?_⟩
      cases h : (r.review_id == rid && r.user_id == uid) with
      | true =>
        exfalso
        exact hne (by simpa using h)
      | false => simp [h]
    · intro r hr
      rw [hrev] at hr
      have hm := List.mem_filter.mp hr
      refine ⟨hm.1, ?_⟩
      intro hcon
      have hb := hm.2
      have ht : (r.review_id == rid && r.user_id == uid) = true := by
        simp [hcon.1, hcon.2]
      rw [ht] at hb
      simp at hb
    · intro hall
      exact absurd hold_pred (hall old hold_mem)

/-- Witness: deleting review 1 as user 2 (who does not own it) matches no
row, leaves the seeded state unchanged, and still answers the success
flash and redirect. -/
theorem deleteReview_scoped_witness :
    (deleteReviewRoute seedState 2 1).1 = seedState
    ∧ (deleteReviewRoute seedState 2 1).2
      = (.success "Review deleted successfully!", "/auth/user/" ++ toString 2) :=
  ⟨(deleteReview_scoped seedState 2 1).2.2.1 (by decide),
   (deleteReview_scoped seedState 2 1).2.2.2⟩

end BookNotes
